import Mathlib

/-!
Shallow embedding of the constant-product AMM arithmetic engine
(`src/curve/fees.rs`, `src/curve/constant_product.rs`, `src/curve/calculator.rs`).

Machine integers (`u128`) are modelled as `Nat` together with explicit
`< 2 ^ 128` bound checks; `u64` fee rates are widened to `u128` before any
arithmetic in the source, so they are also plain `Nat` here.

Rust's two failure channels are kept distinct:
  * `checked_*` followed by `?` propagates `None` to the caller — modelled by
    `RustResult.err` (an absence of result);
  * `checked_*` followed by `.unwrap()` aborts the process — modelled by
    `RustResult.panic`.
Functions whose every fallible step uses `?` are modelled directly in
`Option`; functions containing an `.unwrap()` return `RustResult`.
-/

/-- Number of values of a `u128`: overflow threshold for checked arithmetic. -/
def U128_SIZE : Nat := 2 ^ 128

/-- `u128::checked_mul`. -/
def checked_mul (a b : Nat) : Option Nat :=
  if a * b < U128_SIZE then some (a * b) else none

/-- `u128::checked_add`. -/
def checked_add (a b : Nat) : Option Nat :=
  if a + b < U128_SIZE then some (a + b) else none

/-- `u128::checked_sub`. -/
def checked_sub (a b : Nat) : Option Nat :=
  if b ≤ a then some (a - b) else none

/-- `u128::checked_div` (`None` on zero divisor). -/
def checked_div (a b : Nat) : Option Nat :=
  if b = 0 then none else some (a / b)

/-- `u128::checked_rem` (`None` on zero divisor). -/
def checked_rem (a b : Nat) : Option Nat :=
  if b = 0 then none else some (a % b)

/-- Outcome of a Rust computation that may either return a typed absence of
result (`Option::None` propagated with `?`) or abort (`.unwrap()` on `None`). -/
inductive RustResult (α : Type) where
  | ok : α → RustResult α
  | err : RustResult α
  | panic : RustResult α
deriving DecidableEq, Repr

/-- `?` applied to an `Option`: `None` becomes a returned absence of result. -/
def tryOp {α : Type} : Option α → RustResult α
  | some a => RustResult.ok a
  | none => RustResult.err

/-- `.unwrap()` applied to an `Option`: `None` aborts. -/
def unwrapOp {α : Type} : Option α → RustResult α
  | some a => RustResult.ok a
  | none => RustResult.panic

/-- Sequencing of Rust computations: both failure channels short-circuit. -/
def RustResult.bind {α β : Type} : RustResult α → (α → RustResult β) → RustResult β
  | RustResult.ok a, f => f a
  | RustResult.err, _ => RustResult.err
  | RustResult.panic, _ => RustResult.panic

/-- `FEE_RATE_DENOMINATOR_VALUE` from `fees.rs`. -/
def FEE_RATE_DENOMINATOR_VALUE : Nat := 1000000

/-- `ceil_div` from `fees.rs`: the multiplication is `.unwrap()`ed (abort on
overflow), the remaining steps use `?`. -/
def ceil_div (token_amount fee_numerator fee_denominator : Nat) : RustResult Nat :=
  RustResult.bind (unwrapOp (checked_mul token_amount fee_numerator)) (fun x1 =>
  RustResult.bind (tryOp (checked_add x1 fee_denominator)) (fun x2 =>
  RustResult.bind (tryOp (checked_sub x2 1)) (fun x3 =>
  tryOp (checked_div x3 fee_denominator))))

/-- `floor_div` from `fees.rs`: every step checked with `?`. -/
def floor_div (token_amount fee_numerator fee_denominator : Nat) : Option Nat :=
  match checked_mul token_amount fee_numerator with
  | none => none
  | some m => checked_div m fee_denominator

namespace Fees

/-- `Fees::trading_fee` from `fees.rs` (the `println!` is a side effect with no
bearing on the returned value and is not modelled). -/
def trading_fee (amount trade_fee_rate : Nat) : RustResult Nat :=
  ceil_div amount trade_fee_rate FEE_RATE_DENOMINATOR_VALUE

/-- `Fees::protocol_fee` from `fees.rs`. -/
def protocol_fee (amount protocol_fee_rate : Nat) : Option Nat :=
  floor_div amount protocol_fee_rate FEE_RATE_DENOMINATOR_VALUE

/-- `Fees::calculate_pre_fee_amount` from `fees.rs`: every step checked
with `?`. -/
def calculate_pre_fee_amount (post_fee_amount trade_fee_rate : Nat) : Option Nat :=
  if trade_fee_rate = 0 then some post_fee_amount
  else
    match checked_mul post_fee_amount FEE_RATE_DENOMINATOR_VALUE with
    | none => none
    | some numerator =>
    match checked_sub FEE_RATE_DENOMINATOR_VALUE trade_fee_rate with
    | none => none
    | some denominator =>
    match checked_add numerator denominator with
    | none => none
    | some x =>
    match checked_sub x 1 with
    | none => none
    | some y => checked_div y denominator

end Fees

/-- `RoundDirection` from `calculator.rs`. -/
inductive RoundDirection where
  | Floor : RoundDirection
  | Ceiling : RoundDirection
deriving DecidableEq, Repr

/-- `TradingTokenResult` from `calculator.rs`. -/
structure TradingTokenResult where
  token_0_amount : Nat
  token_1_amount : Nat
deriving DecidableEq, Repr

/-- `SwapResult` from `calculator.rs`. -/
structure SwapResult where
  new_swap_source_amount : Nat
  new_swap_destination_amount : Nat
  source_amount_swapped : Nat
  destination_amount_swapped : Nat
  trade_fee : Nat
  protocol_fee : Nat
deriving DecidableEq, Repr

/-- Modelled from the spec: `crate::utils::CheckedCeilDiv` is imported by
`constant_product.rs` but the `utils` module is not part of the provided
sources. Per the spec (section 4.2) the exact-output curve step computes the
ceiling of the division and a zero divisor is a failure, so the quotient
component is `ceil(a / b)` and the divisor `b = 0` yields `None`. Only the
quotient component of the pair is used by the caller. -/
def checked_ceil_div (a b : Nat) : Option Nat :=
  if b = 0 then none else some ((a + b - 1) / b)

namespace ConstantProductCurve

/-- `ConstantProductCurve::swap_base_input_without_fees` from
`constant_product.rs`: all three steps are `.unwrap()`ed, so every arithmetic
failure aborts. -/
def swap_base_input_without_fees
    (source_amount swap_source_amount swap_destination_amount : Nat) : RustResult Nat :=
  RustResult.bind (unwrapOp (checked_mul source_amount swap_destination_amount)) (fun numerator =>
  RustResult.bind (unwrapOp (checked_add swap_source_amount source_amount)) (fun denominator =>
  unwrapOp (checked_div numerator denominator)))

/-- `ConstantProductCurve::swap_base_output_without_fees` from
`constant_product.rs`: all three steps are `.unwrap()`ed. -/
def swap_base_output_without_fees
    (destination_amount swap_source_amount swap_destination_amount : Nat) : RustResult Nat :=
  RustResult.bind (unwrapOp (checked_mul swap_source_amount destination_amount)) (fun numerator =>
  RustResult.bind (unwrapOp (checked_sub swap_destination_amount destination_amount)) (fun denominator =>
  unwrapOp (checked_ceil_div numerator denominator)))

/-- `ConstantProductCurve::lp_tokens_to_trading_tokens` from
`constant_product.rs`: every step checked with `?`; under `Ceiling` each side
is bumped by one exactly when its remainder is positive and its floored
amount is positive. -/
def lp_tokens_to_trading_tokens
    (lp_token_amount lp_token_supply swap_token_0_amount swap_token_1_amount : Nat)
    (round_direction : RoundDirection) : Option TradingTokenResult :=
  match checked_mul lp_token_amount swap_token_0_amount with
  | none => none
  | some m0 =>
  match checked_div m0 lp_token_supply with
  | none => none
  | some token_0_amount =>
  match checked_mul lp_token_amount swap_token_1_amount with
  | none => none
  | some m1 =>
  match checked_div m1 lp_token_supply with
  | none => none
  | some token_1_amount =>
  match round_direction with
  | RoundDirection.Floor => some ⟨token_0_amount, token_1_amount⟩
  | RoundDirection.Ceiling =>
    match checked_mul lp_token_amount swap_token_0_amount with
    | none => none
    | some n0 =>
    match checked_rem n0 lp_token_supply with
    | none => none
    | some token_0_remainder =>
    let token_0_final := if 0 < token_0_remainder ∧ 0 < token_0_amount
      then token_0_amount + 1 else token_0_amount
    match checked_mul lp_token_amount swap_token_1_amount with
    | none => none
    | some n1 =>
    match checked_rem n1 lp_token_supply with
    | none => none
    | some token_1_remainder =>
    let token_1_final := if 0 < token_1_remainder ∧ 0 < token_1_amount
      then token_1_amount + 1 else token_1_amount
    some ⟨token_0_final, token_1_final⟩

end ConstantProductCurve

namespace CurveCalculator

/-- `CurveCalculator::swap_base_input` from `calculator.rs`: `trading_fee` may
abort internally (its multiplication is unwrapped); the `?` steps return an
absence of result; the inner curve call may abort. -/
def swap_base_input
    (source_amount swap_source_amount swap_destination_amount
      trade_fee_rate protocol_fee_rate : Nat) : RustResult SwapResult :=
  RustResult.bind (Fees.trading_fee source_amount trade_fee_rate) (fun trade_fee =>
  RustResult.bind (tryOp (Fees.protocol_fee trade_fee protocol_fee_rate)) (fun protocol_fee =>
  RustResult.bind (tryOp (checked_sub source_amount trade_fee)) (fun source_amount_less_fees =>
  RustResult.bind (ConstantProductCurve.swap_base_input_without_fees
      source_amount_less_fees swap_source_amount swap_destination_amount)
    (fun destination_amount_swapped =>
  RustResult.bind (tryOp (checked_add swap_source_amount source_amount)) (fun new_source =>
  RustResult.bind (tryOp (checked_sub swap_destination_amount destination_amount_swapped))
    (fun new_destination =>
  RustResult.ok ⟨new_source, new_destination, source_amount,
    destination_amount_swapped, trade_fee, protocol_fee⟩))))))

end CurveCalculator

/-! ### Inversion and characterization lemmas -/

theorem RustResult.bind_eq_ok {α β : Type} {m : RustResult α} {f : α → RustResult β} {b : β}
    (h : RustResult.bind m f = RustResult.ok b) :
    ∃ a, m = RustResult.ok a ∧ f a = RustResult.ok b := by
  cases m with
  | ok a => exact ⟨a, rfl, h⟩
  | err => simp [RustResult.bind] at h
  | panic => simp [RustResult.bind] at h

theorem ceil_div_ok_iff (a r den fee : Nat) (hden : 0 < den) :
    ceil_div a r den = RustResult.ok fee ↔
      a * r < U128_SIZE ∧ a * r + den < U128_SIZE ∧
        fee = (a * r + den - 1) / den := by
  unfold ceil_div
  by_cases h1 : a * r < U128_SIZE
  · by_cases h2 : a * r + den < U128_SIZE
    · have h3 : (1 : Nat) ≤ a * r + den := by omega
      have h4 : ¬ den = 0 := by omega
      simp only [checked_mul, checked_add, checked_sub, checked_div, unwrapOp, tryOp,
        RustResult.bind, if_pos h1, if_pos h2, if_pos h3, if_neg h4]
      constructor
      · intro h
        exact ⟨h1, h2, ((RustResult.ok.injEq _ _).mp h).symm⟩
      · intro ⟨_, _, h⟩
        exact congrArg RustResult.ok h.symm
    · simp [checked_mul, checked_add, unwrapOp, tryOp, RustResult.bind, h1, h2]
  · simp [checked_mul, unwrapOp, RustResult.bind, h1]

theorem ceil_div_panic_iff (a r den : Nat) (hden : 0 < den) :
    ceil_div a r den = RustResult.panic ↔ U128_SIZE ≤ a * r := by
  unfold ceil_div
  by_cases h1 : a * r < U128_SIZE
  · by_cases h2 : a * r + den < U128_SIZE
    · have h3 : (1 : Nat) ≤ a * r + den := by omega
      have h4 : ¬ den = 0 := by omega
      simp only [checked_mul, checked_add, checked_sub, checked_div, unwrapOp, tryOp,
        RustResult.bind, if_pos h1, if_pos h2, if_pos h3, if_neg h4]
      constructor
      · intro h
        cases h
      · intro h
        omega
    · simp only [checked_mul, checked_add, unwrapOp, tryOp, RustResult.bind,
        if_pos h1, if_neg h2]
      constructor
      · intro h
        cases h
      · intro h
        omega
  · simp only [checked_mul, unwrapOp, RustResult.bind, if_neg h1]
    constructor
    · intro _
      omega
    · intro _
      trivial

theorem trading_fee_ok_iff (a r fee : Nat) :
    Fees.trading_fee a r = RustResult.ok fee ↔
      a * r < U128_SIZE ∧ a * r + 1000000 < U128_SIZE ∧
        fee = (a * r + 1000000 - 1) / 1000000 := by
  unfold Fees.trading_fee FEE_RATE_DENOMINATOR_VALUE
  exact ceil_div_ok_iff a r 1000000 fee (by norm_num)

theorem trading_fee_panic_iff (a r : Nat) :
    Fees.trading_fee a r = RustResult.panic ↔ U128_SIZE ≤ a * r := by
  unfold Fees.trading_fee FEE_RATE_DENOMINATOR_VALUE
  exact ceil_div_panic_iff a r 1000000 (by norm_num)

theorem swap_base_input_without_fees_ok_iff (s rs rd out : Nat) :
    ConstantProductCurve.swap_base_input_without_fees s rs rd = RustResult.ok out ↔
      s * rd < U128_SIZE ∧ rs + s < U128_SIZE ∧ 0 < rs + s ∧ out = s * rd / (rs + s) := by
  unfold ConstantProductCurve.swap_base_input_without_fees
  by_cases h1 : s * rd < U128_SIZE
  · by_cases h2 : rs + s < U128_SIZE
    · by_cases h3 : rs + s = 0
      · have h0 : 0 < U128_SIZE := by unfold U128_SIZE; positivity
        simp [checked_mul, checked_add, checked_div, unwrapOp, RustResult.bind, h1, h2, h3, h0]
      · simp only [checked_mul, checked_add, checked_div, unwrapOp, RustResult.bind,
          if_pos h1, if_pos h2, if_neg h3]
        constructor
        · intro h
          exact ⟨h1, h2, Nat.pos_of_ne_zero h3, ((RustResult.ok.injEq _ _).mp h).symm⟩
        · intro ⟨_, _, _, h⟩
          exact congrArg RustResult.ok h.symm
    · simp [checked_mul, checked_add, unwrapOp, RustResult.bind, h1, h2]
  · simp [checked_mul, unwrapOp, RustResult.bind, h1]

theorem checked_mul_eq_some_iff (a b c : Nat) :
    checked_mul a b = some c ↔ a * b < U128_SIZE ∧ c = a * b := by
  unfold checked_mul
  split_ifs with h
  · simp [h, eq_comm]
  · simp [h]

theorem checked_add_eq_some_iff (a b c : Nat) :
    checked_add a b = some c ↔ a + b < U128_SIZE ∧ c = a + b := by
  unfold checked_add
  split_ifs with h
  · simp [h, eq_comm]
  · simp [h]

theorem checked_sub_eq_some_iff (a b c : Nat) :
    checked_sub a b = some c ↔ b ≤ a ∧ c = a - b := by
  unfold checked_sub
  split_ifs with h
  · simp [h, eq_comm]
  · simp [h]

theorem checked_div_eq_some_iff (a b c : Nat) :
    checked_div a b = some c ↔ b ≠ 0 ∧ c = a / b := by
  unfold checked_div
  split_ifs with h
  · simp [h]
  · simp [h, eq_comm]

theorem tryOp_eq_ok {α : Type} {o : Option α} {a : α} (h : tryOp o = RustResult.ok a) :
    o = some a := by
  cases o with
  | some x => simpa [tryOp] using h
  | none => simp [tryOp] at h

theorem swap_base_input_without_fees_panic_of_overflow (s rs rd : Nat)
    (h : U128_SIZE ≤ s * rd) :
    ConstantProductCurve.swap_base_input_without_fees s rs rd = RustResult.panic := by
  unfold ConstantProductCurve.swap_base_input_without_fees
  simp [checked_mul, unwrapOp, RustResult.bind, Nat.not_lt.mpr h]

theorem swap_base_input_without_fees_panic_of_zero_denominator (s rs rd : Nat)
    (h : rs + s = 0) :
    ConstantProductCurve.swap_base_input_without_fees s rs rd = RustResult.panic := by
  have hs : s = 0 := by omega
  have hrs : rs = 0 := by omega
  subst hs hrs
  have h0 : 0 < U128_SIZE := by unfold U128_SIZE; positivity
  unfold ConstantProductCurve.swap_base_input_without_fees
  simp [checked_mul, checked_add, checked_div, unwrapOp, RustResult.bind, h0]

theorem swap_base_output_without_fees_panic_of_overflow (d rs rd : Nat)
    (h : U128_SIZE ≤ rs * d) :
    ConstantProductCurve.swap_base_output_without_fees d rs rd = RustResult.panic := by
  unfold ConstantProductCurve.swap_base_output_without_fees
  simp [checked_mul, unwrapOp, RustResult.bind, Nat.not_lt.mpr h]

theorem swap_base_output_without_fees_panic_of_drain (d rs rd : Nat)
    (h1 : rs * d < U128_SIZE) (h2 : rd ≤ d) :
    ConstantProductCurve.swap_base_output_without_fees d rs rd = RustResult.panic := by
  unfold ConstantProductCurve.swap_base_output_without_fees
  by_cases h3 : d ≤ rd
  · have hdr : d = rd := by omega
    subst hdr
    simp [checked_mul, checked_sub, checked_ceil_div, unwrapOp, RustResult.bind, h1]
  · simp [checked_mul, checked_sub, unwrapOp, RustResult.bind, h1, h3]

theorem calculate_pre_fee_amount_some_iff (p r pre : Nat) (hr : r ≠ 0) :
    Fees.calculate_pre_fee_amount p r = some pre ↔
      p * 1000000 < U128_SIZE ∧ r < 1000000 ∧
        p * 1000000 + (1000000 - r) < U128_SIZE ∧
        pre = (p * 1000000 + (1000000 - r) - 1) / (1000000 - r) := by
  unfold Fees.calculate_pre_fee_amount FEE_RATE_DENOMINATOR_VALUE
  rw [if_neg hr]
  by_cases h1 : p * 1000000 < U128_SIZE
  · by_cases h2 : r ≤ 1000000
    · by_cases h3 : r = 1000000
      · subst h3
        have hd : (1000000 : Nat) - 1000000 = 0 := by omega
        simp only [checked_mul, checked_sub, checked_add, checked_div,
          if_pos h1, if_pos h2, hd]
        rw [if_pos (by omega : p * 1000000 + 0 < U128_SIZE)]
        by_cases hp : p * 1000000 = 0
        · simp [hp]
        · have h5 : (1 : Nat) ≤ p * 1000000 := by omega
          simp [h5]
      · have hlt : r < 1000000 := by omega
        by_cases h4 : p * 1000000 + (1000000 - r) < U128_SIZE
        · have h5 : (1 : Nat) ≤ p * 1000000 + (1000000 - r) := by omega
          have h6 : ¬ (1000000 - r) = 0 := by omega
          simp only [checked_mul, checked_sub, checked_add, checked_div,
            if_pos h1, if_pos h2, if_pos h4, if_pos h5, if_neg h6]
          constructor
          · intro h
            exact ⟨h1, hlt, h4, (Option.some.injEq _ _ ▸ h).symm⟩
          · intro ⟨_, _, _, h⟩
            exact congrArg some h.symm
        · simp only [checked_mul, checked_sub, checked_add,
            if_pos h1, if_pos h2, if_neg h4]
          simp
          omega
    · simp only [checked_mul, checked_sub, if_pos h1, if_neg h2]
      simp
      omega
  · simp only [checked_mul, if_neg h1]
    simp
    omega

theorem lp_tokens_floor_some_iff (a s r0 r1 : Nat) (res : TradingTokenResult) :
    ConstantProductCurve.lp_tokens_to_trading_tokens a s r0 r1 RoundDirection.Floor = some res ↔
      a * r0 < U128_SIZE ∧ a * r1 < U128_SIZE ∧ s ≠ 0 ∧
        res = ⟨a * r0 / s, a * r1 / s⟩ := by
  unfold ConstantProductCurve.lp_tokens_to_trading_tokens
  by_cases h1 : a * r0 < U128_SIZE
  · by_cases hs : s = 0
    · simp [checked_mul, checked_div, h1, hs]
    · by_cases h2 : a * r1 < U128_SIZE
      · simp only [checked_mul, checked_div, if_pos h1, if_pos h2, if_neg hs]
        constructor
        · intro h
          exact ⟨h1, h2, hs, ((Option.some.injEq _ _).mp h).symm⟩
        · intro ⟨_, _, _, h⟩
          exact congrArg some h.symm
      · simp [checked_mul, checked_div, h1, h2, hs]
  · simp [checked_mul, h1]

theorem lp_tokens_ceiling_some_iff (a s r0 r1 : Nat) (res : TradingTokenResult) :
    ConstantProductCurve.lp_tokens_to_trading_tokens a s r0 r1 RoundDirection.Ceiling = some res ↔
      a * r0 < U128_SIZE ∧ a * r1 < U128_SIZE ∧ s ≠ 0 ∧
        res = ⟨(if 0 < a * r0 % s ∧ 0 < a * r0 / s then a * r0 / s + 1 else a * r0 / s),
               (if 0 < a * r1 % s ∧ 0 < a * r1 / s then a * r1 / s + 1 else a * r1 / s)⟩ := by
  unfold ConstantProductCurve.lp_tokens_to_trading_tokens
  by_cases h1 : a * r0 < U128_SIZE
  · by_cases hs : s = 0
    · simp [checked_mul, checked_div, h1, hs]
    · by_cases h2 : a * r1 < U128_SIZE
      · simp only [checked_mul, checked_div, checked_rem, if_pos h1, if_pos h2, if_neg hs]
        constructor
        · intro h
          exact ⟨h1, h2, hs, ((Option.some.injEq _ _).mp h).symm⟩
        · intro ⟨_, _, _, h⟩
          exact congrArg some h.symm
      · simp [checked_mul, checked_div, h1, h2, hs]
  · simp [checked_mul, h1]

/-! ### Claim theorems -/

/-- Claim C1: for every `source_in` and reserves with `reserve_source ≥ 1` and
`reserve_destination ≥ 1`, when the fee-free exact-input curve function
succeeds (no intermediate overflow) the returned `destination_out` satisfies
`(reserve_source + source_in) * (reserve_destination - destination_out) ≥
reserve_source * reserve_destination`. -/
theorem C1_fee_free_swap_preserves_invariant
    (source_in reserve_source reserve_destination destination_out : Nat)
    (hrs : 1 ≤ reserve_source) (hrd : 1 ≤ reserve_destination)
    (h : ConstantProductCurve.swap_base_input_without_fees
      source_in reserve_source reserve_destination = RustResult.ok destination_out) :
    reserve_source * reserve_destination ≤
      (reserve_source + source_in) * (reserve_destination - destination_out) := by
  rw [swap_base_input_without_fees_ok_iff] at h
  obtain ⟨h1, h2, h3, hout⟩ := h
  have hdl : destination_out * (reserve_source + source_in) ≤
      source_in * reserve_destination := by
    rw [hout]
    exact Nat.div_mul_le_self _ _
  have hdl2 : (reserve_source + source_in) * destination_out ≤
      source_in * reserve_destination := by
    rw [Nat.mul_comm]
    exact hdl
  have expand : (reserve_source + source_in) * (reserve_destination - destination_out) =
      (reserve_source + source_in) * reserve_destination -
        (reserve_source + source_in) * destination_out :=
    Nat.mul_sub_left_distrib _ _ _
  have expand2 : (reserve_source + source_in) * reserve_destination =
      reserve_source * reserve_destination + source_in * reserve_destination := by
    ring
  omega

/-- Witness for C1 at `source_in = 1`, reserves `(1, 1)`: the curve returns
`destination_out = 0` and `1 * 1 ≤ (1 + 1) * (1 - 0)`. -/
theorem C1_fee_free_swap_preserves_invariant_witness :
    ConstantProductCurve.swap_base_input_without_fees 1 1 1 = RustResult.ok 0 ∧
      (1 : Nat) * 1 ≤ (1 + 1) * (1 - 0) :=
  ⟨by decide, C1_fee_free_swap_preserves_invariant 1 1 1 0
    (by decide) (by decide) (by decide)⟩

/-- Claim C6: whenever the fee-free exact-input curve function does not
overflow and `reserve_source + source_in > 0`, it returns exactly
`floor(source_in * reserve_destination / (reserve_source + source_in))`. -/
theorem C6_fee_free_swap_exact_floor (source_in reserve_source reserve_destination : Nat)
    (h1 : source_in * reserve_destination < U128_SIZE)
    (h2 : reserve_source + source_in < U128_SIZE)
    (h3 : 0 < reserve_source + source_in) :
    ConstantProductCurve.swap_base_input_without_fees
      source_in reserve_source reserve_destination =
      RustResult.ok (source_in * reserve_destination / (reserve_source + source_in)) := by
  rw [swap_base_input_without_fees_ok_iff]
  exact ⟨h1, h2, h3, rfl⟩

/-- Witness for C6 at the spec's concrete example: `source_in = 10`,
`reserve_source = 4_000_000`, `reserve_destination = 70_000_000_000` yields
`destination_out = 174_999`. -/
theorem C6_fee_free_swap_exact_floor_witness :
    ConstantProductCurve.swap_base_input_without_fees 10 4000000 70000000000 =
      RustResult.ok 174999 := by
  have h := C6_fee_free_swap_exact_floor 10 4000000 70000000000
    (by decide) (by decide) (by decide)
  rw [h]

/-- Counterexample for claim C2: at `source_in = 0`, `reserve_source = 0`,
`reserve_destination = 5` we have `reserve_source + source_in = 0`, yet the
fee-free exact-input function aborts (models `.unwrap()` panicking) instead of
returning the error value that the claim requires. -/
theorem C2_error_reporting_counterexample :
    ConstantProductCurve.swap_base_input_without_fees 0 0 5 = RustResult.panic ∧
      (0 : Nat) + 0 = 0 ∧
      RustResult.panic ≠ (RustResult.err : RustResult Nat) := by
  refine ⟨by decide, rfl, by decide⟩

/-- Claim C2 as amended: the fee-free curve functions abort (they `.unwrap()`
checked arithmetic, modelled as `RustResult.panic`) rather than return an
error value: the exact-input function aborts on multiplication overflow and
when `reserve_source + source_in = 0`, and the exact-output function aborts
on multiplication overflow and when
`destination_out ≥ reserve_destination`. -/
theorem C2_fee_free_swap_aborts_on_arithmetic_failure
    (source_in reserve_source reserve_destination destination_out : Nat) :
    (U128_SIZE ≤ source_in * reserve_destination →
      ConstantProductCurve.swap_base_input_without_fees
        source_in reserve_source reserve_destination = RustResult.panic) ∧
    (reserve_source + source_in = 0 →
      ConstantProductCurve.swap_base_input_without_fees
        source_in reserve_source reserve_destination = RustResult.panic) ∧
    (U128_SIZE ≤ reserve_source * destination_out →
      ConstantProductCurve.swap_base_output_without_fees
        destination_out reserve_source reserve_destination = RustResult.panic) ∧
    (reserve_source * destination_out < U128_SIZE →
      reserve_destination ≤ destination_out →
      ConstantProductCurve.swap_base_output_without_fees
        destination_out reserve_source reserve_destination = RustResult.panic) :=
  ⟨swap_base_input_without_fees_panic_of_overflow _ _ _,
   swap_base_input_without_fees_panic_of_zero_denominator _ _ _,
   swap_base_output_without_fees_panic_of_overflow _ _ _,
   swap_base_output_without_fees_panic_of_drain _ _ _⟩

/-- Witness for the amended C2: each abort condition exercised at a concrete
input. -/
theorem C2_fee_free_swap_aborts_on_arithmetic_failure_witness :
    ConstantProductCurve.swap_base_input_without_fees (2 ^ 127) 1 4 = RustResult.panic ∧
    ConstantProductCurve.swap_base_input_without_fees 0 0 7 = RustResult.panic ∧
    ConstantProductCurve.swap_base_output_without_fees 4 (2 ^ 127) 9 = RustResult.panic ∧
    ConstantProductCurve.swap_base_output_without_fees 9 3 9 = RustResult.panic :=
  ⟨(C2_fee_free_swap_aborts_on_arithmetic_failure (2 ^ 127) 1 4 0).1 (by decide),
   (C2_fee_free_swap_aborts_on_arithmetic_failure 0 0 7 0).2.1 (by decide),
   (C2_fee_free_swap_aborts_on_arithmetic_failure 0 (2 ^ 127) 9 4).2.2.1 (by decide),
   (C2_fee_free_swap_aborts_on_arithmetic_failure 0 3 9 9).2.2.2 (by decide) (by decide)⟩

/-- Claim C8 evaluated at the failing input: `trading_fee` aborts (the
`checked_mul` result is `.unwrap()`ed) on multiplication overflow instead of
reporting the absence of a result promised by both the claim and `ceil_div`'s
own documentation comment. -/
theorem C8_trading_fee_panics_on_mul_overflow :
    Fees.trading_fee (2 ^ 127) 2 = RustResult.panic := by
  rw [trading_fee_panic_iff]
  decide

/-- Claim C7: `calculate_pre_fee_amount` returns `post_fee_amount` unchanged
when `rate = 0`; for `0 < rate < DENOMINATOR` without overflow it returns
`(post * DENOMINATOR + (DENOMINATOR - rate) - 1) / (DENOMINATOR - rate)`,
which is `ceil(post * DENOMINATOR / (DENOMINATOR - rate))`; it returns no
result whenever `rate ≥ DENOMINATOR` or the multiplication overflows. -/
theorem C7_calculate_pre_fee_amount_spec (post_fee_amount rate : Nat) :
    (rate = 0 → Fees.calculate_pre_fee_amount post_fee_amount rate = some post_fee_amount) ∧
    (rate ≠ 0 → rate < 1000000 →
      post_fee_amount * 1000000 + (1000000 - rate) < U128_SIZE →
      Fees.calculate_pre_fee_amount post_fee_amount rate =
        some ((post_fee_amount * 1000000 + (1000000 - rate) - 1) / (1000000 - rate))) ∧
    (1000000 ≤ rate → Fees.calculate_pre_fee_amount post_fee_amount rate = none) ∧
    (U128_SIZE ≤ post_fee_amount * 1000000 → rate ≠ 0 →
      Fees.calculate_pre_fee_amount post_fee_amount rate = none) := by
  refine ⟨?_, ?_, ?_, ?_⟩
  · intro h
    subst h
    simp [Fees.calculate_pre_fee_amount]
  · intro hr hlt hov
    exact (calculate_pre_fee_amount_some_iff post_fee_amount rate _ hr).mpr
      ⟨by omega, hlt, hov, rfl⟩
  · intro hge
    cases h : Fees.calculate_pre_fee_amount post_fee_amount rate with
    | none => rfl
    | some pre =>
      exfalso
      have := (calculate_pre_fee_amount_some_iff post_fee_amount rate pre
        (by omega)).mp h
      omega
  · intro hov hr
    cases h : Fees.calculate_pre_fee_amount post_fee_amount rate with
    | none => rfl
    | some pre =>
      exfalso
      have := (calculate_pre_fee_amount_some_iff post_fee_amount rate pre hr).mp h
      omega

/-- Witness for C7: the four branches at concrete inputs — identity at rate 0,
the ceiling formula at rate 500000, failure at rate 1000000, and failure on
multiplication overflow. -/
theorem C7_calculate_pre_fee_amount_spec_witness :
    Fees.calculate_pre_fee_amount 5 0 = some 5 ∧
    Fees.calculate_pre_fee_amount 1000 500000 = some 2000 ∧
    Fees.calculate_pre_fee_amount 5 1000000 = none ∧
    Fees.calculate_pre_fee_amount (2 ^ 128) 3 = none := by
  refine ⟨(C7_calculate_pre_fee_amount_spec 5 0).1 rfl, ?_,
    (C7_calculate_pre_fee_amount_spec 5 1000000).2.2.1 (by decide),
    (C7_calculate_pre_fee_amount_spec (2 ^ 128) 3).2.2.2 (by decide) (by decide)⟩
  have h := (C7_calculate_pre_fee_amount_spec 1000 500000).2.1
    (by decide) (by decide) (by decide)
  rw [h]

/-- Claim C10 (implicit): for every positive amount and positive rate for
which `trading_fee` succeeds, the fee is at least one unit — a consequence of
the ceiling rounding. -/
theorem C10_nonzero_trade_pays_fee (amount rate fee : Nat)
    (ha : 0 < amount) (hr : 0 < rate)
    (h : Fees.trading_fee amount rate = RustResult.ok fee) : 1 ≤ fee := by
  rw [trading_fee_ok_iff] at h
  obtain ⟨h1, h2, hfee⟩ := h
  have hpos : 1 ≤ amount * rate := Nat.mul_pos ha hr
  rw [hfee]
  rw [Nat.le_div_iff_mul_le (by norm_num)]
  omega

/-- Witness for C10 at `amount = 1`, `rate = 1`: the fee is `1 ≥ 1`. -/
theorem C10_nonzero_trade_pays_fee_witness :
    Fees.trading_fee 1 1 = RustResult.ok 1 ∧ (1 : Nat) ≤ 1 :=
  ⟨by decide, C10_nonzero_trade_pays_fee 1 1 1 (by decide) (by decide) (by decide)⟩

/-- Claim C3: composing `calculate_pre_fee_amount` with `trading_fee` recovers
the original post-fee amount exactly: for every `rate < DENOMINATOR`, when
both operations succeed, `post_fee_amount = pre - trading_fee(pre, rate)`. -/
theorem C3_pre_fee_round_trip (post_fee_amount rate pre fee : Nat)
    (hrate : rate < 1000000)
    (hpre : Fees.calculate_pre_fee_amount post_fee_amount rate = some pre)
    (hfee : Fees.trading_fee pre rate = RustResult.ok fee) :
    post_fee_amount = pre - fee := by
  by_cases hr0 : rate = 0
  · subst hr0
    have hpp : pre = post_fee_amount := by
      unfold Fees.calculate_pre_fee_amount at hpre
      simpa using hpre.symm
    rw [trading_fee_ok_iff] at hfee
    obtain ⟨_, _, hf⟩ := hfee
    subst hpp
    have hzero : (pre * 0 + 1000000 - 1) / 1000000 = 0 := by norm_num
    omega
  · rw [calculate_pre_fee_amount_some_iff post_fee_amount rate pre hr0] at hpre
    obtain ⟨h1, hlt, h2, hprev⟩ := hpre
    rw [trading_fee_ok_iff] at hfee
    obtain ⟨h3, h4, hfeev⟩ := hfee
    have e1 := Nat.div_add_mod (post_fee_amount * 1000000 + (1000000 - rate) - 1)
      (1000000 - rate)
    have m1lt : (post_fee_amount * 1000000 + (1000000 - rate) - 1) % (1000000 - rate) <
        1000000 - rate := Nat.mod_lt _ (by omega)
    rw [← hprev] at e1
    have e2 := Nat.div_add_mod (pre * rate + 1000000 - 1) 1000000
    have m2lt : (pre * rate + 1000000 - 1) % 1000000 < 1000000 :=
      Nat.mod_lt _ (by norm_num)
    rw [← hfeev] at e2
    have hsum : rate + (1000000 - rate) = 1000000 := by omega
    have hsplit : pre * rate + pre * (1000000 - rate) = pre * 1000000 := by
      rw [← Nat.mul_add, hsum]
    have hXle : pre * (1000000 - rate) ≤ pre * 1000000 :=
      Nat.mul_le_mul_left pre (by omega)
    have e1c : (1000000 - rate) * pre = pre * (1000000 - rate) := Nat.mul_comm _ _
    omega

/-- Witness for C3 at `post_fee_amount = 100`, `rate = 500000`:
`pre = 200`, `fee = 100`, and `100 = 200 - 100`. -/
theorem C3_pre_fee_round_trip_witness :
    Fees.calculate_pre_fee_amount 100 500000 = some 200 ∧
    Fees.trading_fee 200 500000 = RustResult.ok 100 ∧
    (100 : Nat) = 200 - 100 :=
  ⟨by decide, by decide,
    C3_pre_fee_round_trip 100 500000 200 100 (by decide) (by decide) (by decide)⟩

theorem ceiling_side_no_dilution (a s r : Nat) (hs : s ≠ 0) (hq : 1 ≤ a * r / s) :
    r * (s + a) ≤
      (r + (if 0 < a * r % s ∧ 0 < a * r / s then a * r / s + 1 else a * r / s)) * s := by
  have e := Nat.div_add_mod (a * r) s
  have hm : a * r % s < s := Nat.mod_lt _ (Nat.pos_of_ne_zero hs)
  have key : a * r ≤
      (if 0 < a * r % s ∧ 0 < a * r / s then a * r / s + 1 else a * r / s) * s := by
    split_ifs with hcase
    · have expand : (a * r / s + 1) * s = s * (a * r / s) + s := by ring
      omega
    · have hrem0 : a * r % s = 0 := by
        by_contra hne
        exact hcase ⟨Nat.pos_of_ne_zero hne, hq⟩
      have expand : (a * r / s) * s = s * (a * r / s) := by ring
      omega
  have expand1 : r * (s + a) = r * s + a * r := by ring
  have expand2 :
      (r + (if 0 < a * r % s ∧ 0 < a * r / s then a * r / s + 1 else a * r / s)) * s =
        r * s +
          (if 0 < a * r % s ∧ 0 < a * r / s then a * r / s + 1 else a * r / s) * s := by
    ring
  omega

/-- Counterexample for claim C4: `lp_tokens_to_trading_tokens 1 10 1 1 Ceiling`
succeeds with amounts `(0, 0)` (the floored amount is zero, so Ceiling does
not bump it), yet `(1 + 0) * 10 < 1 * (10 + 1)`: the deposit dilutes the
existing holders. -/
theorem C4_deposit_dilution_counterexample :
    ConstantProductCurve.lp_tokens_to_trading_tokens 1 10 1 1 RoundDirection.Ceiling =
      some ⟨0, 0⟩ ∧ ¬ ((1 + 0) * 10 ≥ 1 * (10 + 1)) := by
  refine ⟨by decide, by decide⟩

/-- Claim C4 as amended: for every Ceiling `lp_tokens_to_trading_tokens` call
that succeeds and whose floored amounts are at least one on both sides (the
guard the repository's own property test assumes), adding the returned
amounts to the reserves and the share amount to the supply satisfies
`new_reserve_i * old_share_supply ≥ old_reserve_i * new_share_supply` for
both sides. -/
theorem C4_deposit_no_dilution
    (lp_token_amount lp_token_supply swap_token_0_amount swap_token_1_amount : Nat)
    (res : TradingTokenResult)
    (h : ConstantProductCurve.lp_tokens_to_trading_tokens lp_token_amount lp_token_supply
      swap_token_0_amount swap_token_1_amount RoundDirection.Ceiling = some res)
    (h0 : 1 ≤ lp_token_amount * swap_token_0_amount / lp_token_supply)
    (h1 : 1 ≤ lp_token_amount * swap_token_1_amount / lp_token_supply) :
    swap_token_0_amount * (lp_token_supply + lp_token_amount) ≤
      (swap_token_0_amount + res.token_0_amount) * lp_token_supply ∧
    swap_token_1_amount * (lp_token_supply + lp_token_amount) ≤
      (swap_token_1_amount + res.token_1_amount) * lp_token_supply := by
  rw [lp_tokens_ceiling_some_iff] at h
  obtain ⟨hm0, hm1, hs, hres⟩ := h
  subst hres
  exact ⟨ceiling_side_no_dilution _ _ _ hs h0, ceiling_side_no_dilution _ _ _ hs h1⟩

/-- Witness for the amended C4 at `share = 5`, `supply = 10`, reserves
`(2, 49)`: the Ceiling amounts are `(1, 25)` and both sides satisfy the
no-dilution inequality. -/
theorem C4_deposit_no_dilution_witness :
    ConstantProductCurve.lp_tokens_to_trading_tokens 5 10 2 49 RoundDirection.Ceiling =
      some ⟨1, 25⟩ ∧
    2 * (10 + 5) ≤ (2 + 1) * 10 ∧ 49 * (10 + 5) ≤ (49 + 25) * 10 := by
  have h := C4_deposit_no_dilution 5 10 2 49 ⟨1, 25⟩ (by decide) (by decide) (by decide)
  exact ⟨by decide, h.1, h.2⟩

/-- Claim C9: for every successful `lp_tokens_to_trading_tokens` call, each
side is `floor(share_amount * reserve_i / share_supply)` under Floor, and
under Ceiling that side is incremented by exactly one precisely when the
division has a non-zero remainder and the floored amount is non-zero. -/
theorem C9_lp_tokens_rounding
    (lp_token_amount lp_token_supply swap_token_0_amount swap_token_1_amount : Nat) :
    (∀ res, ConstantProductCurve.lp_tokens_to_trading_tokens lp_token_amount lp_token_supply
        swap_token_0_amount swap_token_1_amount RoundDirection.Floor = some res →
      res.token_0_amount = lp_token_amount * swap_token_0_amount / lp_token_supply ∧
      res.token_1_amount = lp_token_amount * swap_token_1_amount / lp_token_supply) ∧
    (∀ res, ConstantProductCurve.lp_tokens_to_trading_tokens lp_token_amount lp_token_supply
        swap_token_0_amount swap_token_1_amount RoundDirection.Ceiling = some res →
      (res.token_0_amount =
        if 0 < lp_token_amount * swap_token_0_amount % lp_token_supply ∧
            0 < lp_token_amount * swap_token_0_amount / lp_token_supply
          then lp_token_amount * swap_token_0_amount / lp_token_supply + 1
          else lp_token_amount * swap_token_0_amount / lp_token_supply) ∧
      (res.token_1_amount =
        if 0 < lp_token_amount * swap_token_1_amount % lp_token_supply ∧
            0 < lp_token_amount * swap_token_1_amount / lp_token_supply
          then lp_token_amount * swap_token_1_amount / lp_token_supply + 1
          else lp_token_amount * swap_token_1_amount / lp_token_supply)) := by
  constructor
  · intro res h
    rw [lp_tokens_floor_some_iff] at h
    obtain ⟨_, _, _, hres⟩ := h
    subst hres
    exact ⟨rfl, rfl⟩
  · intro res h
    rw [lp_tokens_ceiling_some_iff] at h
    obtain ⟨_, _, _, hres⟩ := h
    subst hres
    exact ⟨rfl, rfl⟩

/-- Witness for C9 at the spec's concrete example: `share = 5`, `supply = 10`,
reserves `(2, 49)` with Ceiling yields `(1, 25)`. -/
theorem C9_lp_tokens_rounding_witness :
    ConstantProductCurve.lp_tokens_to_trading_tokens 5 10 2 49 RoundDirection.Ceiling =
      some ⟨1, 25⟩ ∧
    (1 : Nat) = (if 0 < 5 * 2 % 10 ∧ 0 < 5 * 2 / 10 then 5 * 2 / 10 + 1 else 5 * 2 / 10) ∧
    (25 : Nat) =
      (if 0 < 5 * 49 % 10 ∧ 0 < 5 * 49 / 10 then 5 * 49 / 10 + 1 else 5 * 49 / 10) := by
  have h := (C9_lp_tokens_rounding 5 10 2 49).2 ⟨1, 25⟩ (by decide)
  exact ⟨by decide, h.1, h.2⟩

/-- Claim C5: whenever the exact-input swap succeeds, the returned result has
new source reserve `reserve_source + source_amount` (the whole gross input,
fees included), new destination reserve
`reserve_destination - destination_out`, and `destination_out` is the
fee-free curve output on `source_amount - trade_fee`; and the subtraction
step returns an absence of result (not an abort) when the fee exceeds the
amount. -/
theorem C5_swap_base_input_result_reserves
    (source_amount swap_source_amount swap_destination_amount
      trade_fee_rate protocol_fee_rate : Nat) :
    (∀ res, CurveCalculator.swap_base_input source_amount swap_source_amount
        swap_destination_amount trade_fee_rate protocol_fee_rate = RustResult.ok res →
      res.new_swap_source_amount = swap_source_amount + source_amount ∧
      res.new_swap_destination_amount =
        swap_destination_amount - res.destination_amount_swapped ∧
      res.source_amount_swapped = source_amount ∧
      Fees.trading_fee source_amount trade_fee_rate = RustResult.ok res.trade_fee ∧
      ConstantProductCurve.swap_base_input_without_fees
        (source_amount - res.trade_fee) swap_source_amount swap_destination_amount =
        RustResult.ok res.destination_amount_swapped) ∧
    (∀ fee pfee, Fees.trading_fee source_amount trade_fee_rate = RustResult.ok fee →
      Fees.protocol_fee fee protocol_fee_rate = some pfee →
      source_amount < fee →
      CurveCalculator.swap_base_input source_amount swap_source_amount
        swap_destination_amount trade_fee_rate protocol_fee_rate = RustResult.err) := by
  constructor
  · intro res h
    unfold CurveCalculator.swap_base_input at h
    obtain ⟨fee, hfee, h⟩ := RustResult.bind_eq_ok h
    obtain ⟨pfee, hpfee, h⟩ := RustResult.bind_eq_ok h
    obtain ⟨less, hless, h⟩ := RustResult.bind_eq_ok h
    obtain ⟨out, hout, h⟩ := RustResult.bind_eq_ok h
    obtain ⟨nss, hnss, h⟩ := RustResult.bind_eq_ok h
    obtain ⟨nsd, hnsd, h⟩ := RustResult.bind_eq_ok h
    have hres := (RustResult.ok.injEq _ _).mp h
    subst hres
    have ha := tryOp_eq_ok hnss
    rw [checked_add_eq_some_iff] at ha
    have hd := tryOp_eq_ok hnsd
    rw [checked_sub_eq_some_iff] at hd
    have hl := tryOp_eq_ok hless
    rw [checked_sub_eq_some_iff] at hl
    refine ⟨ha.2, hd.2, rfl, hfee, ?_⟩
    have hsub : source_amount - fee = less := hl.2.symm
    rw [show (SwapResult.mk nss nsd source_amount out fee pfee).trade_fee = fee from rfl,
      hsub]
    exact hout
  · intro fee pfee hfee hpfee hlt
    unfold CurveCalculator.swap_base_input
    rw [hfee]
    simp only [RustResult.bind]
    rw [hpfee]
    simp only [tryOp, RustResult.bind]
    have hnone : checked_sub source_amount fee = none := by
      unfold checked_sub
      rw [if_neg (by omega)]
    rw [hnone]

/-- Witness for C5: a successful swap at `source = 100`, reserves
`(1000, 1000)`, trade fee rate 1% (10000 ppm), protocol rate 0 — and a
failing subtraction at `source = 1` with an out-of-range rate 2000000 ppm,
whose fee 2 exceeds the amount. -/
theorem C5_swap_base_input_result_reserves_witness :
    CurveCalculator.swap_base_input 100 1000 1000 10000 0 =
      RustResult.ok ⟨1100, 910, 100, 90, 1, 0⟩ ∧
    (1100 : Nat) = 1000 + 100 ∧ (910 : Nat) = 1000 - 90 ∧
    CurveCalculator.swap_base_input 1 5 5 2000000 0 = RustResult.err := by
  have h1 := (C5_swap_base_input_result_reserves 100 1000 1000 10000 0).1
    ⟨1100, 910, 100, 90, 1, 0⟩ (by decide)
  have h2 := (C5_swap_base_input_result_reserves 1 5 5 2000000 0).2 2 0
    (by decide) (by decide) (by decide)
  exact ⟨by decide, h1.1, h1.2.1, h2⟩
